import Mathlib

/-!
Shallow embedding of the checkout-session / agent-tool-orchestration core of
the omise-agent-checkout repository (src/src/services/checkout-agent.service.ts
and src/src/services/user-profile.service.ts), together with theorems settling
the specification claims about it.

Conventions of the embedding:
* TypeScript numbers holding money amounts and quantities are modelled as `Int`
  (the code only ever adds and multiplies integers in minor currency units).
* `undefined`-able strings are modelled as `Option String`; JavaScript
  truthiness of such a value (`undefined` and `""` are falsy) is `jsTruthy`.
* Fallible external calls (the Omise gateway client, the e-commerce platform
  manager) are modelled as oracle functions returning `Except String α`:
  `.error msg` models a rejected promise whose `error.message` is `msg`.
* A handler that throws after partially mutating state is modelled by
  returning the mutated state together with `.error msg`, matching the
  in-place JavaScript mutation semantics.
* Generated identifiers (`Date.now()` + randomness) are modelled by a counter
  threaded through the world state; the session id is a parameter of
  `createSession`.
* Tool-call argument objects are modelled by a record of optional fields; the
  dispatch extracts fields exactly where the source reads them, with the same
  `||` defaulting.  Arguments that the tool JSON schema marks `required` are
  extracted with a `""`/`0` fallback that is unreachable for schema-valid
  inputs.
-/

namespace OmiseCheckout

/-- JavaScript truthiness of a possibly-undefined string:
`undefined` and the empty string are falsy. -/
def jsTruthy : Option String → Bool
  | some s => s ≠ ""
  | none => false

/-- JavaScript `a || b` on possibly-undefined strings. -/
def jsOr (a b : Option String) : Option String :=
  if jsTruthy a then a else b

/-- JavaScript template interpolation of a possibly-undefined string. -/
def jsInterp : Option String → String
  | some s => s
  | none => "undefined"

/-- JavaScript `a || d` for an optional numeric argument (`0` is falsy). -/
def jsOrInt (a : Option Int) (d : Int) : Int :=
  match a with
  | some v => if v == 0 then d else v
  | none => d

/-- `status` field of a `CheckoutSession` (checkout-agent.service.ts line 15). -/
inductive SessionStatus where
  | active
  | pending_payment
  | completed
  | cancelled
  deriving DecidableEq, Repr

/-- Role of a conversation message (checkout-agent.service.ts line 30). -/
inductive Role where
  | user
  | assistant
  deriving DecidableEq, Repr

/-- `Message` interface (checkout-agent.service.ts lines 29-32). -/
structure Message where
  role : Role
  content : String
  deriving DecidableEq, Repr

/-- `CartItem` interface (checkout-agent.service.ts lines 21-27). -/
structure CartItem where
  id : String
  name : String
  description : Option String := none
  price : Int
  quantity : Int
  deriving DecidableEq, Repr

/-- `CheckoutSession` interface (checkout-agent.service.ts lines 6-19). -/
structure CheckoutSession where
  sessionId : String
  customerId : Option String := none
  userId : Option String := none
  cart : List CartItem
  totalAmount : Int
  currency : String
  conversationHistory : List Message
  paymentMethod : Option String := none
  status : SessionStatus
  shippingAddressId : Option String := none
  billingAddressId : Option String := none
  paymentMethodId : Option String := none
  deriving DecidableEq, Repr

/-- `CheckoutAgentService.calculateTotal` (checkout-agent.service.ts lines
610-612): `cart.reduce((sum, item) => sum + item.price * item.quantity, 0)`. -/
def calculateTotal (cart : List CartItem) : Int :=
  cart.foldl (fun sum item => sum + item.price * item.quantity) 0

/-- The specification-side sum `Σ (item.price × item.quantity)` over a cart. -/
def cartSum (cart : List CartItem) : Int :=
  (cart.map (fun item => item.price * item.quantity)).sum

theorem calculateTotal_go (cart : List CartItem) :
    ∀ acc : Int,
      cart.foldl (fun sum item => sum + item.price * item.quantity) acc
        = acc + cartSum cart := by
  induction cart with
  | nil => intro acc; simp [cartSum]
  | cons x xs ih =>
      intro acc
      simp only [List.foldl_cons, cartSum, List.map_cons, List.sum_cons] at *
      rw [ih]
      ring

/-- The reduce in `calculateTotal` computes exactly `Σ price × quantity`. -/
theorem calculateTotal_eq (cart : List CartItem) :
    calculateTotal cart = cartSum cart := by
  unfold calculateTotal
  rw [calculateTotal_go]
  simp

/-- The derived-total invariant of the data model:
`totalAmount == Σ (item.price × item.quantity)` over the session's cart. -/
def cartInvariant (s : CheckoutSession) : Prop :=
  s.totalAmount = cartSum s.cart

instance (s : CheckoutSession) : Decidable (cartInvariant s) := by
  unfold cartInvariant; infer_instance

/-- `CheckoutAgentService.createSession` (checkout-agent.service.ts lines
63-79).  The generated session id is a parameter; the body performs no cart
validation of any kind. -/
def createSession (sessionId : String) (cart : List CartItem)
    (currency : String) (userId : Option String) : CheckoutSession :=
  { sessionId := sessionId
    cart := cart
    totalAmount := calculateTotal cart
    currency := currency
    conversationHistory := []
    status := SessionStatus.active
    userId := userId }

/-- The cart-validation error named by the specification (§4.1); it does not
occur anywhere in the repository's code. -/
inductive CartError where
  | invalidCart
  deriving DecidableEq, Repr

/-- Modelled from the spec: the `createSession` contract the specification
states in §4.1 — "fails with `InvalidCartError` if cart is empty or any item
has non-positive quantity or negative price", otherwise builds the session.
This definition follows the spec's words and exists only to be compared with
the code's `createSession`, which has no failure path. -/
def createSessionSpec (sessionId : String) (cart : List CartItem)
    (currency : String) (userId : Option String) :
    Except CartError CheckoutSession :=
  if cart.isEmpty || cart.any (fun item => item.quantity ≤ 0 || item.price < 0) then
    Except.error CartError.invalidCart
  else
    Except.ok (createSession sessionId cart currency userId)

/-- `CheckoutAgentService.formatAmount` (checkout-agent.service.ts lines
617-620): `(amount / 100).toFixed(2)` followed by the currency code.  For the
integer minor-unit amounts of the model this two-decimal rendering is exact. -/
def pad2 (n : Nat) : String :=
  if n < 10 then ("0") ++ toString n else toString n

def formatAmount (amount : Int) (currency : String) : String :=
  (if amount < 0 then ("-") else (""))
    ++ toString (amount.natAbs / 100) ++ "." ++ pad2 (amount.natAbs % 100)
    ++ " " ++ currency

/-- `ChargeParams` (omise.service.ts lines 8-17), restricted to the fields the
checkout agent passes; `metadata` is an opaque gateway argument and omitted. -/
structure ChargeParams where
  amount : Int
  currency : String
  source : String
  description : String
  return_uri : Option String := none
  deriving DecidableEq, Repr

/-- A charge object as returned by the gateway and read by the agent
(`charge.id`, `charge.status`, `charge.failure_message`,
`charge.authorize_uri`, `charge.amount`, `charge.currency`). -/
structure Charge where
  id : String
  status : String
  failure_message : Option String := none
  authorize_uri : Option String := none
  amount : Int := 0
  currency : String := ""
  deriving DecidableEq, Repr

/-- `SourceParams` (omise.service.ts lines 34-38). -/
structure SourceParams where
  type : String
  amount : Int
  currency : String
  deriving DecidableEq, Repr

/-- A payment source as returned by the gateway; the agent reads `source.id`
and `source.scannable_code?.image?.download_uri` (flattened here). -/
structure Source where
  id : String
  scannableCodeImageDownloadUri : Option String := none
  deriving DecidableEq, Repr

/-- A product as returned by the e-commerce platform manager; the agent reads
id, name, description, price, currency, sku and stock. -/
structure Product where
  id : String
  name : String
  description : Option String := none
  price : Int
  currency : String := ""
  sku : String := ""
  stock : Int := 0
  deriving DecidableEq, Repr

/-- `PaymentMethod.type` (user-profile.service.ts line 10). -/
inductive PMType where
  | card
  | promptpay
  | internet_banking
  | mobile_banking
  deriving DecidableEq, Repr

def pmTypeStr : PMType → String
  | PMType.card => "card"
  | PMType.promptpay => "promptpay"
  | PMType.internet_banking => "internet_banking"
  | PMType.mobile_banking => "mobile_banking"

/-- `PaymentMethod` (user-profile.service.ts lines 8-23); `createdAt` is a
wall-clock timestamp never branched on and is omitted. -/
structure PaymentMethod where
  id : String
  type : PMType
  isDefault : Bool
  cardToken : Option String := none
  cardBrand : Option String := none
  cardLastDigits : Option String := none
  cardExpiryMonth : Option String := none
  cardExpiryYear : Option String := none
  cardHolderName : Option String := none
  bankCode : Option String := none
  phoneNumber : Option String := none
  deriving DecidableEq, Repr

/-- `SavedAddress` (user-profile.service.ts lines 51-55 plus the `Address`
fields used by the agent).  Fields arrive from untyped tool input, so every
text field is possibly undefined. -/
structure SavedAddress where
  id : String
  firstName : Option String := none
  lastName : Option String := none
  address1 : Option String := none
  address2 : Option String := none
  city : Option String := none
  state : Option String := none
  postalCode : Option String := none
  country : Option String := none
  phone : Option String := none
  label : Option String := none
  isDefault : Bool
  deriving DecidableEq, Repr

/-- `UserProfile` (user-profile.service.ts lines 25-49), restricted to the
fields the claims exercise; the `preferences` record is flattened and the
identity/timestamp fields never branched on are omitted. -/
structure UserProfile where
  id : String
  shippingAddresses : List SavedAddress := []
  billingAddresses : List SavedAddress := []
  paymentMethods : List PaymentMethod := []
  defaultShippingAddressId : Option String := none
  defaultBillingAddressId : Option String := none
  defaultPaymentMethodId : Option String := none
  totalOrders : Nat := 0
  totalSpent : Int := 0
  deriving DecidableEq, Repr

/-- `UserProfileService.getProfile` (user-profile.service.ts lines 114-116)
over the in-memory profile map, modelled as a list keyed by profile id. -/
def getProfile (store : List UserProfile) (userId : String) : Option UserProfile :=
  store.find? (fun p => p.id == userId)

/-- Replace the profile with the given id (models `this.profiles.set`). -/
def setProfile (store : List UserProfile) (userId : String)
    (profile : UserProfile) : List UserProfile :=
  store.map (fun p => if p.id == userId then profile else p)

/-- `UserProfileService.getDefaultShippingAddress` (lines 387-394):
`find(a => a.isDefault) || shippingAddresses[0] || null`. -/
def getDefaultShippingAddress (store : List UserProfile) (userId : String) :
    Option SavedAddress :=
  match getProfile store userId with
  | none => none
  | some profile =>
    match profile.shippingAddresses.find? (fun a => a.isDefault) with
    | some a => some a
    | none => profile.shippingAddresses.head?

/-- `UserProfileService.getDefaultBillingAddress` (lines 399-406). -/
def getDefaultBillingAddress (store : List UserProfile) (userId : String) :
    Option SavedAddress :=
  match getProfile store userId with
  | none => none
  | some profile =>
    match profile.billingAddresses.find? (fun a => a.isDefault) with
    | some a => some a
    | none => profile.billingAddresses.head?

/-- `UserProfileService.getDefaultPaymentMethod` (lines 411-418):
`find(m => m.isDefault) || paymentMethods[0] || null`. -/
def getDefaultPaymentMethod (store : List UserProfile) (userId : String) :
    Option PaymentMethod :=
  match getProfile store userId with
  | none => none
  | some profile =>
    match profile.paymentMethods.find? (fun m => m.isDefault) with
    | some m => some m
    | none => profile.paymentMethods.head?

structure QuickCheckoutData where
  shippingAddress : Option SavedAddress
  billingAddress : Option SavedAddress
  paymentMethod : Option PaymentMethod
  deriving DecidableEq, Repr

/-- `UserProfileService.getQuickCheckoutData` (lines 466-485). -/
def getQuickCheckoutData (store : List UserProfile) (userId : String) :
    QuickCheckoutData :=
  match getProfile store userId with
  | none =>
    { shippingAddress := none, billingAddress := none, paymentMethod := none }
  | some _ =>
    { shippingAddress := getDefaultShippingAddress store userId
      billingAddress := getDefaultBillingAddress store userId
      paymentMethod := getDefaultPaymentMethod store userId }

/-- `AddAddressParams` as built by the checkout agent from tool input. -/
structure AddAddressParams where
  firstName : Option String := none
  lastName : Option String := none
  address1 : Option String := none
  address2 : Option String := none
  city : Option String := none
  state : Option String := none
  postalCode : Option String := none
  country : Option String := none
  phone : Option String := none
  label : Option String := none
  isDefault : Option Bool := none
  deriving DecidableEq, Repr

/-- `UserProfileService.addShippingAddress` (lines 155-181); the generated
address id is a parameter.  A missing profile throws. -/
def addShippingAddress (store : List UserProfile) (userId : String)
    (address : AddAddressParams) (addressId : String) :
    List UserProfile × Except String SavedAddress :=
  match getProfile store userId with
  | none => (store, Except.error ("Profile " ++ userId ++ " not found"))
  | some profile =>
    let savedAddress : SavedAddress :=
      { id := addressId
        firstName := address.firstName, lastName := address.lastName
        address1 := address.address1, address2 := address.address2
        city := address.city, state := address.state
        postalCode := address.postalCode, country := address.country
        phone := address.phone, label := address.label
        isDefault := address.isDefault.getD false }
    let profile1 :=
      if savedAddress.isDefault then
        { profile with
            shippingAddresses :=
              profile.shippingAddresses.map (fun a => { a with isDefault := false })
            defaultShippingAddressId := some addressId }
      else profile
    let profile2 :=
      { profile1 with shippingAddresses := profile1.shippingAddresses ++ [savedAddress] }
    (setProfile store userId profile2, Except.ok savedAddress)

/-- `UserProfileService.addBillingAddress` (lines 186-212). -/
def addBillingAddress (store : List UserProfile) (userId : String)
    (address : AddAddressParams) (addressId : String) :
    List UserProfile × Except String SavedAddress :=
  match getProfile store userId with
  | none => (store, Except.error ("Profile " ++ userId ++ " not found"))
  | some profile =>
    let savedAddress : SavedAddress :=
      { id := addressId
        firstName := address.firstName, lastName := address.lastName
        address1 := address.address1, address2 := address.address2
        city := address.city, state := address.state
        postalCode := address.postalCode, country := address.country
        phone := address.phone, label := address.label
        isDefault := address.isDefault.getD false }
    let profile1 :=
      if savedAddress.isDefault then
        { profile with
            billingAddresses :=
              profile.billingAddresses.map (fun a => { a with isDefault := false })
            defaultBillingAddressId := some addressId }
      else profile
    let profile2 :=
      { profile1 with billingAddresses := profile1.billingAddresses ++ [savedAddress] }
    (setProfile store userId profile2, Except.ok savedAddress)

/-- `AddPaymentMethodParams` as built by the checkout agent from tool input. -/
structure AddPaymentMethodParams where
  type : PMType
  cardToken : Option String := none
  cardBrand : Option String := none
  cardLastDigits : Option String := none
  cardExpiryMonth : Option String := none
  cardExpiryYear : Option String := none
  cardHolderName : Option String := none
  bankCode : Option String := none
  isDefault : Option Bool := none
  deriving DecidableEq, Repr

/-- `UserProfileService.addPaymentMethod` (lines 293-320). -/
def addPaymentMethod (store : List UserProfile) (userId : String)
    (paymentMethod : AddPaymentMethodParams) (methodId : String) :
    List UserProfile × Except String PaymentMethod :=
  match getProfile store userId with
  | none => (store, Except.error ("Profile " ++ userId ++ " not found"))
  | some profile =>
    let savedMethod : PaymentMethod :=
      { id := methodId
        type := paymentMethod.type
        isDefault := paymentMethod.isDefault.getD false
        cardToken := paymentMethod.cardToken
        cardBrand := paymentMethod.cardBrand
        cardLastDigits := paymentMethod.cardLastDigits
        cardExpiryMonth := paymentMethod.cardExpiryMonth
        cardExpiryYear := paymentMethod.cardExpiryYear
        cardHolderName := paymentMethod.cardHolderName
        bankCode := paymentMethod.bankCode }
    let profile1 :=
      if savedMethod.isDefault then
        { profile with
            paymentMethods :=
              profile.paymentMethods.map (fun m => { m with isDefault := false })
            defaultPaymentMethodId := some methodId }
      else profile
    let profile2 :=
      { profile1 with paymentMethods := profile1.paymentMethods ++ [savedMethod] }
    (setProfile store userId profile2, Except.ok savedMethod)

/-- `UserProfileService.recordCheckout` (lines 423-435). -/
def recordCheckout (store : List UserProfile) (userId : String)
    (orderAmount : Int) : List UserProfile × Except String Unit :=
  match getProfile store userId with
  | none => (store, Except.error ("Profile " ++ userId ++ " not found"))
  | some profile =>
    let profile1 :=
      { profile with
          totalOrders := profile.totalOrders + 1
          totalSpent := profile.totalSpent + orderAmount }
    (setProfile store userId profile1, Except.ok ())

/-- JavaScript `a || d` on a possibly-undefined string with a plain default. -/
def jsOrStr (a : Option String) (d : String) : String :=
  match a with
  | some s => if s == "" then d else s
  | none => d

/-- The e-commerce platform manager capability, as the checkout agent calls
it (ecommerce-manager.service.ts): each call may reject. -/
structure Platform where
  searchProductBySku : String → Except String (Option Product)
  getProduct : String → Except String Product
  listProducts : Int → Option String → Except String (List Product)

/-- External capabilities of the agent: the Omise gateway oracles and the
optional platform manager (`this.ecommercePlatformManager`). -/
structure Env where
  createCharge : ChargeParams → Except String Charge
  createSource : SourceParams → Except String Source
  getCharge : String → Except String Charge
  platform : Option Platform

/-- Mutable state a chat turn can touch: the session and the optional
user-profile store (`this.userProfileService`), plus the id counter
modelling `Date.now()`-based id generation. -/
structure World where
  session : CheckoutSession
  store : Option (List UserProfile)
  nextId : Nat := 0

/-- The `ChargeParams` built by `processCardPayment`
(checkout-agent.service.ts lines 524-533). -/
def cardChargeParams (cardToken : String) (s : CheckoutSession) : ChargeParams :=
  { amount := s.totalAmount
    currency := s.currency
    source := cardToken
    description := "Order payment - Session " ++ s.sessionId }

/-- The `return_uri` used by the redirect-based handlers. -/
def callbackUri (s : CheckoutSession) : String :=
  "http://localhost:3000/checkout/callback/" ++ s.sessionId

/-- The `SourceParams` built by `createPromptPayPayment` (lines 547-551). -/
def promptpaySourceParams (s : CheckoutSession) : SourceParams :=
  { type := "promptpay", amount := s.totalAmount, currency := s.currency }

/-- The `ChargeParams` built against a created source (lines 553-559 and
586-592). -/
def sourceChargeParams (sourceId : String) (s : CheckoutSession) : ChargeParams :=
  { amount := s.totalAmount
    currency := s.currency
    source := sourceId
    description := "Order payment - Session " ++ s.sessionId
    return_uri := some (callbackUri s) }

/-- The `bankTypes` record of `createInternetBankingPayment` (lines 573-578). -/
def bankTypes (bank : String) : Option String :=
  if bank == "bbl" then some ("internet_banking_bbl")
  else if bank == "kbank" then some ("internet_banking_kbank")
  else if bank == "scb" then some ("internet_banking_scb")
  else if bank == "ktb" then some ("internet_banking_ktb")
  else none

/-- The `SourceParams` built by `createInternetBankingPayment` (lines
580-584): `bankTypes[bank] || 'internet_banking_bbl'`. -/
def internetBankingSourceParams (bank : String) (s : CheckoutSession) :
    SourceParams :=
  { type := (bankTypes bank).getD ("internet_banking_bbl")
    amount := s.totalAmount
    currency := s.currency }

/-- `CheckoutAgentService.processCardPayment` (lines 520-541). -/
def processCardPayment (env : Env) (cardToken : String) (w : World) :
    World × Except String String :=
  match env.createCharge (cardChargeParams cardToken w.session) with
  | Except.error e => (w, Except.error e)
  | Except.ok charge =>
    if charge.status == "successful" || charge.status == "pending" then
      ({ w with session := { w.session with
            status :=
              if charge.status == "successful" then SessionStatus.completed
              else SessionStatus.pending_payment } },
       Except.ok ("Payment processed successfully! Charge ID: " ++ charge.id
         ++ ", Status: " ++ charge.status))
    else
      (w, Except.ok ("Payment failed: "
        ++ jsOrStr charge.failure_message ("Unknown error")))

/-- `CheckoutAgentService.createPromptPayPayment` (lines 546-564). -/
def createPromptPayPayment (env : Env) (w : World) :
    World × Except String String :=
  match env.createSource (promptpaySourceParams w.session) with
  | Except.error e => (w, Except.error e)
  | Except.ok source =>
    match env.createCharge (sourceChargeParams source.id w.session) with
    | Except.error e => (w, Except.error e)
    | Except.ok charge =>
      ({ w with session :=
          { w.session with status := SessionStatus.pending_payment } },
       Except.ok ("PromptPay QR code generated! Scan URL: "
         ++ jsInterp (jsOr source.scannableCodeImageDownloadUri charge.authorize_uri)
         ++ "\nCharge ID: " ++ charge.id))

/-- `CheckoutAgentService.createInternetBankingPayment` (lines 569-597). -/
def createInternetBankingPayment (env : Env) (bank : String) (w : World) :
    World × Except String String :=
  match env.createSource (internetBankingSourceParams bank w.session) with
  | Except.error e => (w, Except.error e)
  | Except.ok source =>
    match env.createCharge (sourceChargeParams source.id w.session) with
    | Except.error e => (w, Except.error e)
    | Except.ok charge =>
      ({ w with session :=
          { w.session with status := SessionStatus.pending_payment } },
       Except.ok ("Internet banking payment created! Please visit: "
         ++ jsInterp charge.authorize_uri
         ++ "\nCharge ID: " ++ charge.id))

/-- `CheckoutAgentService.checkPaymentStatus` (lines 602-605). -/
def checkPaymentStatus (env : Env) (chargeId : String) (w : World) :
    World × Except String String :=
  match env.getCharge chargeId with
  | Except.error e => (w, Except.error e)
  | Except.ok charge =>
    (w, Except.ok ("Payment status: " ++ charge.status
      ++ ", Amount: " ++ formatAmount charge.amount charge.currency))

/-- `CheckoutAgentService.searchProductBySku` (lines 634-646). -/
def searchProductBySku (env : Env) (sku : String) (w : World) :
    World × Except String String :=
  match env.platform with
  | none => (w, Except.ok ("E-commerce platform integration is not available"))
  | some pf =>
    match pf.searchProductBySku sku with
    | Except.error e => (w, Except.error e)
    | Except.ok none => (w, Except.ok ("No product found with SKU: " ++ sku))
    | Except.ok (some product) =>
      (w, Except.ok ("Found product: " ++ product.name
        ++ "\nSKU: " ++ product.sku
        ++ "\nPrice: " ++ formatAmount product.price product.currency
        ++ "\nStock: " ++ toString product.stock
        ++ "\nDescription: " ++ jsInterp product.description))

/-- `CheckoutAgentService.addProductToCart` (lines 651-670). -/
def addProductToCart (env : Env) (productId : String) (quantity : Int)
    (w : World) : World × Except String String :=
  match env.platform with
  | none => (w, Except.ok ("E-commerce platform integration is not available"))
  | some pf =>
    match pf.getProduct productId with
    | Except.error e => (w, Except.error e)
    | Except.ok product =>
      let cartItem : CartItem :=
        { id := product.id
          name := product.name
          description := product.description
          price := product.price
          quantity := quantity }
      let cart1 := w.session.cart ++ [cartItem]
      let total1 := calculateTotal cart1
      ({ w with session :=
          { w.session with cart := cart1, totalAmount := total1 } },
       Except.ok ("Added " ++ toString quantity ++ "x " ++ product.name
         ++ " to cart. New total: " ++ formatAmount total1 w.session.currency))

/-- The JavaScript `Array.prototype.findIndex`, with `-1` modelled as
`none`. -/
def findIndexOpt (p : CartItem → Bool) : List CartItem → Option Nat
  | [] => none
  | x :: xs => if p x then some 0 else (findIndexOpt p xs).map (· + 1)

def dummyItem : CartItem := { id := "", name := "", price := 0, quantity := 0 }

/-- `CheckoutAgentService.updateCartItem` (lines 675-692). -/
def updateCartItem (cartItemId : String) (quantity : Int) (w : World) :
    World × Except String String :=
  match findIndexOpt (fun item => item.id == cartItemId) w.session.cart with
  | none => (w, Except.ok ("Cart item with ID " ++ cartItemId ++ " not found"))
  | some itemIndex =>
    if quantity == 0 then
      let removedItem := w.session.cart.getD itemIndex dummyItem
      let cart1 := w.session.cart.eraseIdx itemIndex
      let total1 := calculateTotal cart1
      ({ w with session :=
          { w.session with cart := cart1, totalAmount := total1 } },
       Except.ok ("Removed " ++ removedItem.name
         ++ " from cart. New total: " ++ formatAmount total1 w.session.currency))
    else
      let item := w.session.cart.getD itemIndex dummyItem
      let cart1 := w.session.cart.set itemIndex { item with quantity := quantity }
      let total1 := calculateTotal cart1
      ({ w with session :=
          { w.session with cart := cart1, totalAmount := total1 } },
       Except.ok ("Updated " ++ item.name ++ " quantity to " ++ toString quantity
         ++ ". New total: " ++ formatAmount total1 w.session.currency))

/-- `CheckoutAgentService.listProducts` (lines 697-713). -/
def listProducts (env : Env) (limit : Int) (search : Option String) (w : World) :
    World × Except String String :=
  match env.platform with
  | none => (w, Except.ok ("E-commerce platform integration is not available"))
  | some pf =>
    match pf.listProducts limit search with
    | Except.error e => (w, Except.error e)
    | Except.ok products =>
      if products.isEmpty then
        (w, Except.ok ("No products found"))
      else
        (w, Except.ok ("Available products:\n"
          ++ String.intercalate ("\n") (products.map (fun p =>
               "- " ++ p.name ++ " (SKU: " ++ p.sku ++ ") - "
                 ++ formatAmount p.price p.currency
                 ++ " - Stock: " ++ toString p.stock))))

/-- The untyped tool-argument object (`input: any`), restricted to the fields
the handlers read.  Every field may be absent; `save_card` is declared in the
tool schema but never read by any handler and is omitted. -/
structure ToolInput where
  card_token : Option String := none
  bank : Option String := none
  charge_id : Option String := none
  sku : Option String := none
  product_id : Option String := none
  quantity : Option Int := none
  limit : Option Int := none
  search : Option String := none
  cart_item_id : Option String := none
  first_name : Option String := none
  last_name : Option String := none
  address1 : Option String := none
  address2 : Option String := none
  city : Option String := none
  state : Option String := none
  postal_code : Option String := none
  country : Option String := none
  phone : Option String := none
  label : Option String := none
  is_default : Option Bool := none
  pm_type : Option PMType := none
  card_brand : Option String := none
  card_last_digits : Option String := none
  card_expiry_month : Option String := none
  card_expiry_year : Option String := none
  card_holder_name : Option String := none
  bank_code : Option String := none
  use_saved_payment : Option Bool := none

/-- `CheckoutAgentService.saveShippingAddress` (lines 720-746). -/
def saveShippingAddress (input : ToolInput) (w : World) :
    World × Except String String :=
  match w.store with
  | none => (w, Except.ok ("User profile service is not available"))
  | some store =>
    if !(jsTruthy w.session.userId) then
      (w, Except.ok ("No user profile associated with this session. Please create a user profile first."))
    else
      let userId := (w.session.userId).getD ""
      let params : AddAddressParams :=
        { firstName := input.first_name, lastName := input.last_name
          address1 := input.address1, address2 := input.address2
          city := input.city, state := input.state
          postalCode := input.postal_code, country := input.country
          phone := input.phone, label := input.label
          isDefault := some (input.is_default.getD false) }
      let r := addShippingAddress store userId params ("addr_" ++ toString w.nextId)
      match r.2 with
      | Except.error e => ({ w with store := some r.1 }, Except.error e)
      | Except.ok savedAddress =>
        ({ w with
            store := some r.1
            nextId := w.nextId + 1
            session := { w.session with shippingAddressId := some savedAddress.id } },
         Except.ok ("Shipping address saved successfully! "
           ++ (if savedAddress.isDefault then "(Set as default)" else "")
           ++ "\nAddress ID: " ++ savedAddress.id))

/-- `CheckoutAgentService.saveBillingAddress` (lines 751-777). -/
def saveBillingAddress (input : ToolInput) (w : World) :
    World × Except String String :=
  match w.store with
  | none => (w, Except.ok ("User profile service is not available"))
  | some store =>
    if !(jsTruthy w.session.userId) then
      (w, Except.ok ("No user profile associated with this session. Please create a user profile first."))
    else
      let userId := (w.session.userId).getD ""
      let params : AddAddressParams :=
        { firstName := input.first_name, lastName := input.last_name
          address1 := input.address1, address2 := input.address2
          city := input.city, state := input.state
          postalCode := input.postal_code, country := input.country
          phone := input.phone, label := input.label
          isDefault := some (input.is_default.getD false) }
      let r := addBillingAddress store userId params ("addr_" ++ toString w.nextId)
      match r.2 with
      | Except.error e => ({ w with store := some r.1 }, Except.error e)
      | Except.ok savedAddress =>
        ({ w with
            store := some r.1
            nextId := w.nextId + 1
            session := { w.session with billingAddressId := some savedAddress.id } },
         Except.ok ("Billing address saved successfully! "
           ++ (if savedAddress.isDefault then "(Set as default)" else "")
           ++ "\nAddress ID: " ++ savedAddress.id))

/-- Formatting of one saved address line in `getSavedAddresses`
(lines 796-802). -/
def formatAddressLine (addr : SavedAddress) : String :=
  "- " ++ jsOrStr addr.label ("Address") ++ ": " ++ jsInterp addr.address1
    ++ ", " ++ jsInterp addr.city ++ ", " ++ jsInterp addr.state
    ++ " " ++ jsInterp addr.postalCode
    ++ (if addr.isDefault then " (Default)" else "")

/-- `CheckoutAgentService.getSavedAddresses` (lines 782-805). -/
def getSavedAddresses (w : World) : World × Except String String :=
  match w.store with
  | none => (w, Except.ok ("User profile service is not available"))
  | some store =>
    if !(jsTruthy w.session.userId) then
      (w, Except.ok ("No user profile associated with this session."))
    else
      match getProfile store ((w.session.userId).getD "") with
      | none => (w, Except.ok ("User profile not found"))
      | some profile =>
        let shipping :=
          String.intercalate ("\n") (profile.shippingAddresses.map formatAddressLine)
        let billing :=
          String.intercalate ("\n") (profile.billingAddresses.map formatAddressLine)
        (w, Except.ok ("Shipping Addresses:\n"
          ++ (if shipping == "" then ("None saved") else shipping)
          ++ "\n\nBilling Addresses:\n"
          ++ (if billing == "" then ("None saved") else billing)))

/-- `CheckoutAgentService.savePaymentMethod` (lines 810-834).  `type` is
required by the tool schema with an enumerated value; a missing value is
extracted as `card`, unreachable for schema-valid input. -/
def savePaymentMethod (input : ToolInput) (w : World) :
    World × Except String String :=
  match w.store with
  | none => (w, Except.ok ("User profile service is not available"))
  | some store =>
    if !(jsTruthy w.session.userId) then
      (w, Except.ok ("No user profile associated with this session. Please create a user profile first."))
    else
      let userId := (w.session.userId).getD ""
      let params : AddPaymentMethodParams :=
        { type := input.pm_type.getD PMType.card
          cardToken := input.card_token
          cardBrand := input.card_brand
          cardLastDigits := input.card_last_digits
          cardExpiryMonth := input.card_expiry_month
          cardExpiryYear := input.card_expiry_year
          cardHolderName := input.card_holder_name
          bankCode := input.bank_code
          isDefault := some (input.is_default.getD false) }
      let r := addPaymentMethod store userId params ("pm_" ++ toString w.nextId)
      match r.2 with
      | Except.error e => ({ w with store := some r.1 }, Except.error e)
      | Except.ok savedMethod =>
        ({ w with
            store := some r.1
            nextId := w.nextId + 1
            session := { w.session with paymentMethodId := some savedMethod.id } },
         Except.ok ("Payment method saved successfully! "
           ++ (if savedMethod.isDefault then "(Set as default)" else "")
           ++ "\nPayment Method ID: " ++ savedMethod.id))

/-- `CheckoutAgentService.getQuickCheckoutData` (lines 839-876), the tool
handler that formats the aggregate. -/
def getQuickCheckoutDataTool (w : World) : World × Except String String :=
  match w.store with
  | none => (w, Except.ok ("User profile service is not available"))
  | some store =>
    if !(jsTruthy w.session.userId) then
      (w, Except.ok ("No user profile associated with this session."))
    else
      let checkoutData := getQuickCheckoutData store ((w.session.userId).getD "")
      let part1 :=
        match checkoutData.shippingAddress with
        | some a => "Shipping Address: " ++ jsInterp a.address1 ++ ", "
            ++ jsInterp a.city ++ ", " ++ jsInterp a.state ++ "\n"
        | none => "Shipping Address: Not saved\n"
      let part2 :=
        match checkoutData.billingAddress with
        | some a => "Billing Address: " ++ jsInterp a.address1 ++ ", "
            ++ jsInterp a.city ++ ", " ++ jsInterp a.state ++ "\n"
        | none => "Billing Address: Not saved\n"
      let part3 :=
        match checkoutData.paymentMethod with
        | some pm =>
          if pm.type == PMType.card then
            "Payment Method: " ++ jsOrStr pm.cardBrand ("Card")
              ++ " ending in " ++ jsInterp pm.cardLastDigits ++ "\n"
          else
            "Payment Method: " ++ pmTypeStr pm.type ++ "\n"
        | none => "Payment Method: Not saved\n"
      (w, Except.ok ("Quick Checkout Data:\n\n" ++ part1 ++ part2 ++ part3))

/-- `CheckoutAgentService.processQuickCheckout` (lines 881-917).  The
`useSavedPayment` parameter is accepted and, as in the source, never used. -/
def processQuickCheckout (env : Env) (useSavedPayment : Bool) (w : World) :
    World × Except String String :=
  match w.store with
  | none => (w, Except.ok ("User profile service is not available"))
  | some store =>
    if !(jsTruthy w.session.userId) then
      (w, Except.ok ("No user profile associated with this session. Cannot process quick checkout."))
    else
      let userId := (w.session.userId).getD ""
      match (getQuickCheckoutData store userId).paymentMethod with
      | none =>
        (w, Except.ok ("No saved payment method found. Please add a payment method first."))
      | some paymentMethod =>
        let step : Option (World × Except String String) :=
          if paymentMethod.type == PMType.card && jsTruthy paymentMethod.cardToken then
            some (processCardPayment env ((paymentMethod.cardToken).getD "") w)
          else if paymentMethod.type == PMType.promptpay then
            some (createPromptPayPayment env w)
          else if paymentMethod.type == PMType.internet_banking
              && jsTruthy paymentMethod.bankCode then
            some (createInternetBankingPayment env ((paymentMethod.bankCode).getD "") w)
          else
            none
        match step with
        | none => (w, Except.ok ("Saved payment method is incomplete or invalid."))
        | some (w1, Except.error e) => (w1, Except.error e)
        | some (w1, Except.ok result) =>
          if w1.session.status == SessionStatus.completed then
            let r := recordCheckout ((w1.store).getD store) userId w1.session.totalAmount
            match r.2 with
            | Except.error e => ({ w1 with store := some r.1 }, Except.error e)
            | Except.ok _ =>
              ({ w1 with store := some r.1 },
               Except.ok ("Quick Checkout:\n" ++ result))
          else
            (w1, Except.ok ("Quick Checkout:\n" ++ result))

/-- The `switch` of `CheckoutAgentService.handleToolCall` (lines 458-515),
without the surrounding `try`/`catch`. -/
def dispatch (env : Env) (toolName : String) (input : ToolInput) (w : World) :
    World × Except String String :=
  if toolName == "process_card_payment" then
    processCardPayment env ((input.card_token).getD "") w
  else if toolName == "create_promptpay_payment" then
    createPromptPayPayment env w
  else if toolName == "create_internet_banking_payment" then
    createInternetBankingPayment env ((input.bank).getD "") w
  else if toolName == "check_payment_status" then
    checkPaymentStatus env ((input.charge_id).getD "") w
  else if toolName == "search_product_by_sku" then
    searchProductBySku env ((input.sku).getD "") w
  else if toolName == "add_product_to_cart" then
    addProductToCart env ((input.product_id).getD "") (jsOrInt input.quantity 1) w
  else if toolName == "update_cart_item" then
    updateCartItem ((input.cart_item_id).getD "") ((input.quantity).getD 0) w
  else if toolName == "list_products" then
    listProducts env (jsOrInt input.limit 10) input.search w
  else if toolName == "save_shipping_address" then
    saveShippingAddress input w
  else if toolName == "save_billing_address" then
    saveBillingAddress input w
  else if toolName == "get_saved_addresses" then
    getSavedAddresses w
  else if toolName == "save_payment_method" then
    savePaymentMethod input w
  else if toolName == "get_quick_checkout_data" then
    getQuickCheckoutDataTool w
  else if toolName == "process_quick_checkout" then
    processQuickCheckout env ((input.use_saved_payment).getD true) w
  else
    (w, Except.ok ("Unknown tool: " ++ toolName))

/-- `CheckoutAgentService.handleToolCall` (lines 458-515): the dispatch
wrapped in `try`/`catch`, a thrown `error.message` becoming
`Error: <message>`. -/
def handleToolCall (env : Env) (toolName : String) (input : ToolInput)
    (w : World) : World × String :=
  let r := dispatch env toolName input w
  match r.2 with
  | Except.ok text => (r.1, text)
  | Except.error msg => (r.1, "Error: " ++ msg)

/-- One segment of the model's reply (`response.content`): free text or a
structured tool call. -/
inductive ContentBlock where
  | text (content : String)
  | tool_use (name : String) (input : ToolInput)

/-- The reply-assembly loop of `chat` (lines 119-133): fold the content
blocks over the running assistant message, dispatching each tool call. -/
def processContent (env : Env) :
    List ContentBlock → World → String → World × String
  | [], w, acc => (w, acc)
  | ContentBlock.text t :: rest, w, acc =>
      processContent env rest w (acc ++ t)
  | ContentBlock.tool_use name input :: rest, w, acc =>
      let r := handleToolCall env name input w
      processContent env rest r.1 (acc ++ "\n\n" ++ r.2)

/-- Appending one message to the conversation history
(`session.conversationHistory.push`). -/
def appendMessage (s : CheckoutSession) (role : Role) (content : String) :
    CheckoutSession :=
  { s with conversationHistory :=
      s.conversationHistory ++ [{ role := role, content := content }] }

/-- `CheckoutAgentService.chat` (lines 91-142) for a known session.  The
single language-model call is an oracle value: `.error` models a rejected
model call, whose exception propagates to the caller after the user message
was already pushed. -/
def chat (env : Env) (w : World) (userMessage : String)
    (modelResponse : Except String (List ContentBlock)) :
    World × Except String String :=
  let w1 := { w with session := appendMessage w.session Role.user userMessage }
  match modelResponse with
  | Except.error e => (w1, Except.error e)
  | Except.ok blocks =>
      let r := processContent env blocks w1 ""
      ({ r.1 with session := appendMessage r.1.session Role.assistant r.2 },
       Except.ok r.2)

/-! ## Helper lemmas -/

theorem findIndexOpt_eq_none (p : CartItem → Bool) (l : List CartItem)
    (h : ∀ x ∈ l, p x = false) : findIndexOpt p l = none := by
  induction l with
  | nil => rfl
  | cons x xs ih =>
      simp only [findIndexOpt]
      rw [h x (by simp)]
      simp [ih (fun y hy => h y (by simp [hy]))]

theorem findIndexOpt_some (p : CartItem → Bool) :
    ∀ (l : List CartItem) (i : Nat), findIndexOpt p l = some i →
      i < l.length ∧ p (l.getD i dummyItem) = true := by
  intro l
  induction l with
  | nil => intro i h; cases h
  | cons x xs ih =>
      intro i h
      simp only [findIndexOpt] at h
      by_cases hx : p x
      · rw [if_pos hx] at h
        cases h
        simpa using hx
      · rw [if_neg hx] at h
        rcases hj : findIndexOpt p xs with _ | j
        · rw [hj] at h; cases h
        · rw [hj] at h
          cases h
          rcases ih j hj with ⟨hlt, hp⟩
          refine ⟨by simpa using hlt, ?_⟩
          simpa [List.getD_cons_succ] using hp

/-! ## Concrete test fixtures used by witnesses and counterexamples -/

def itemA : CartItem :=
  { id := "itm1", name := "Widget", price := 100000, quantity := 1 }

def sessTest : CheckoutSession := createSession ("sess_1") [itemA] ("THB") none

def wTest : World := { session := sessTest, store := none }

/-! ## Claims -/

/-- C2 (counterexample): at the concrete input of an empty cart, the
specification's `createSession` contract demands an `InvalidCartError`
failure, but the code's `createSession` performs no validation and returns an
`active` session with `totalAmount = 0`. -/
theorem createSession_empty_cart_counterexample :
    createSessionSpec ("s1") [] ("THB") none = Except.error CartError.invalidCart
    ∧ (createSession ("s1") [] ("THB") none).status = SessionStatus.active
    ∧ (createSession ("s1") [] ("THB") none).totalAmount = 0 := by
  refine ⟨rfl, rfl, rfl⟩

/-- C2 (amended): `createSession` performs no cart validation at all — for
every cart, including the empty cart and carts with non-positive quantities
or negative prices, it returns a session whose `totalAmount` is
`Σ (price × quantity)` over the cart, whose `status` is `active`, and whose
`conversationHistory` is empty. -/
theorem createSession_no_validation (sessionId : String) (cart : List CartItem)
    (currency : String) (userId : Option String) :
    (createSession sessionId cart currency userId).totalAmount = cartSum cart
    ∧ (createSession sessionId cart currency userId).status = SessionStatus.active
    ∧ (createSession sessionId cart currency userId).conversationHistory = []
    ∧ (createSession sessionId cart currency userId).cart = cart := by
  exact ⟨calculateTotal_eq cart, rfl, rfl, rfl⟩

/-- C1: immediately after `createSession` and immediately after the
cart-mutating tool handlers `add_product_to_cart` and `update_cart_item`,
`totalAmount` equals `Σ (item.price × item.quantity)` over the cart;
the handlers recompute it from the cart, never set it independently. -/
theorem totalAmount_invariant (sessionId : String) (cart : List CartItem)
    (currency : String) (userId : Option String) (env : Env) (w : World)
    (productId cartItemId : String) (q q' : Int)
    (h : cartInvariant w.session) :
    cartInvariant (createSession sessionId cart currency userId)
    ∧ cartInvariant (addProductToCart env productId q w).1.session
    ∧ cartInvariant (updateCartItem cartItemId q' w).1.session := by
  refine ⟨calculateTotal_eq cart, ?_, ?_⟩
  · rcases hp : env.platform with _ | pf
    · simpa only [addProductToCart, hp] using h
    · rcases hg : pf.getProduct productId with e | product
      · simpa only [addProductToCart, hp, hg] using h
      · simp only [addProductToCart, hp, hg, cartInvariant]
        exact calculateTotal_eq _
  · rcases hf : findIndexOpt (fun item => item.id == cartItemId) w.session.cart
        with _ | i
    · simpa only [updateCartItem, hf] using h
    · by_cases hq : q' == 0
      · simp only [updateCartItem, hf, hq, if_pos, cartInvariant]
        exact calculateTotal_eq _
      · simp only [updateCartItem, hf, hq, if_neg, cartInvariant]
        exact calculateTotal_eq _

/-- C1 (witness): the invariant theorem applied at a concrete world whose
session satisfies the invariant, with a concrete environment. -/
theorem totalAmount_invariant_witness :
    cartInvariant wTest.session
    ∧ cartInvariant (createSession ("s2") [itemA] ("THB") none) := by
  have h : cartInvariant wTest.session := by decide
  exact ⟨h,
    (totalAmount_invariant ("s2") [itemA] ("THB") none
        { createCharge := fun _ => Except.error ("down")
          createSource := fun _ => Except.error ("down")
          getCharge := fun _ => Except.error ("down")
          platform := none }
        wTest ("p1") ("c1") 1 1 h).1⟩

/-- C8: `update_cart_item` with a `cart_item_id` matching no cart item
returns a "not found" result and leaves the world unchanged; with a matching
item (at the first matching index) and quantity 0 it removes exactly that
item and recomputes `totalAmount`; with nonzero quantity it sets that item's
quantity and recomputes `totalAmount`. -/
theorem updateCartItem_spec (cartItemId : String) (q : Int) (w : World) :
    ((∀ item ∈ w.session.cart, (item.id == cartItemId) = false) →
        updateCartItem cartItemId q w
          = (w, Except.ok ("Cart item with ID " ++ cartItemId ++ " not found")))
    ∧ (∀ i, findIndexOpt (fun item => item.id == cartItemId) w.session.cart = some i →
        (w.session.cart.getD i dummyItem).id = cartItemId
        ∧ (q = 0 →
            (updateCartItem cartItemId q w).1.session.cart
              = w.session.cart.eraseIdx i
            ∧ cartInvariant (updateCartItem cartItemId q w).1.session)
        ∧ (q ≠ 0 →
            (updateCartItem cartItemId q w).1.session.cart
              = w.session.cart.set i
                  { w.session.cart.getD i dummyItem with quantity := q }
            ∧ cartInvariant (updateCartItem cartItemId q w).1.session)) := by
  constructor
  · intro hnone
    have hf : findIndexOpt (fun item => item.id == cartItemId) w.session.cart = none :=
      findIndexOpt_eq_none _ _ hnone
    simp only [updateCartItem, hf]
  · intro i hf
    have hid := (findIndexOpt_some _ w.session.cart i hf).2
    refine ⟨by simpa using hid, ?_, ?_⟩
    · intro hq
      subst hq
      refine ⟨?_, ?_⟩ <;>
        simp [updateCartItem, hf, cartInvariant, calculateTotal_eq]
    · intro hq
      have hq' : (q == 0) = false := by simpa using hq
      refine ⟨?_, ?_⟩ <;>
        simp [updateCartItem, hf, hq', cartInvariant, calculateTotal_eq]

/-- C8 (witness): the update theorem applied at the concrete one-item world:
an unknown id yields the not-found result, and quantity 0 on the existing
item removes it. -/
theorem updateCartItem_spec_witness :
    updateCartItem ("missing") 1 wTest
      = (wTest, Except.ok ("Cart item with ID " ++ "missing" ++ " not found"))
    ∧ (updateCartItem ("itm1") 0 wTest).1.session.cart
        = wTest.session.cart.eraseIdx 0 := by
  constructor
  · exact (updateCartItem_spec ("missing") 1 wTest).1 (by decide)
  · exact (((updateCartItem_spec ("itm1") 0 wTest).2 0 (by decide)).2.1 rfl).1

def chSuccess : Charge := { id := "ch_1", status := "successful" }

def chPending : Charge := { id := "ch_2", status := "pending" }

def chFailed : Charge :=
  { id := "ch_3", status := "failed", failure_message := some ("card declined") }

def srcA : Source := { id := "src_1" }

def envSuccess : Env :=
  { createCharge := fun _ => Except.ok chSuccess
    createSource := fun _ => Except.ok srcA
    getCharge := fun _ => Except.error ("unused")
    platform := none }

def envPending : Env :=
  { createCharge := fun _ => Except.ok chPending
    createSource := fun _ => Except.ok srcA
    getCharge := fun _ => Except.error ("unused")
    platform := none }

def envFailed : Env :=
  { createCharge := fun _ => Except.ok chFailed
    createSource := fun _ => Except.ok srcA
    getCharge := fun _ => Except.error ("unused")
    platform := none }

/-- C3: `process_card_payment` maps a gateway charge outcome as follows:
status `successful` sets the session status to `completed`; status `pending`
sets it to `pending_payment`; any other returned charge leaves the whole
world unchanged and returns a `Payment failed: …` message rather than
throwing. -/
theorem processCardPayment_status_mapping (env : Env) (cardToken : String)
    (w : World) (charge : Charge)
    (h : env.createCharge (cardChargeParams cardToken w.session) = Except.ok charge) :
    (charge.status = "successful" →
        (processCardPayment env cardToken w).1.session.status = SessionStatus.completed)
    ∧ (charge.status = "pending" →
        (processCardPayment env cardToken w).1.session.status
          = SessionStatus.pending_payment)
    ∧ (charge.status ≠ "successful" → charge.status ≠ "pending" →
        (processCardPayment env cardToken w).1 = w
        ∧ (processCardPayment env cardToken w).2
            = Except.ok ("Payment failed: "
                ++ jsOrStr charge.failure_message ("Unknown error"))) := by
  refine ⟨?_, ?_, ?_⟩
  · intro hs
    simp [processCardPayment, h, hs]
  · intro hs
    simp [processCardPayment, h, hs]
  · intro hs1 hs2
    have h1 : (charge.status == "successful") = false := by
      simpa using hs1
    have h2 : (charge.status == "pending") = false := by
      simpa using hs2
    refine ⟨?_, ?_⟩ <;> simp [processCardPayment, h, h1, h2]

/-- C3 (witness): the mapping theorem applied at a concrete session for three
concrete gateway outcomes: a successful charge, a pending charge and a
declined charge. -/
theorem processCardPayment_status_mapping_witness :
    (processCardPayment envSuccess ("tok_1") wTest).1.session.status
        = SessionStatus.completed
    ∧ (processCardPayment envPending ("tok_1") wTest).1.session.status
        = SessionStatus.pending_payment
    ∧ (processCardPayment envFailed ("tok_1") wTest).1 = wTest := by
  refine ⟨(processCardPayment_status_mapping envSuccess ("tok_1") wTest chSuccess rfl).1 rfl,
    (processCardPayment_status_mapping envPending ("tok_1") wTest chPending rfl).2.1 rfl,
    ((processCardPayment_status_mapping envFailed ("tok_1") wTest chFailed rfl).2.2
      (by decide) (by decide)).1⟩

/-- C4: whenever the source and charge creation calls both return,
`create_promptpay_payment` and `create_internet_banking_payment` set the
session status to `pending_payment`, regardless of the status the gateway
reports on the created charge. -/
theorem redirect_payments_always_pending (env : Env) (w : World) (bank : String)
    (psource bsource : Source) (pcharge bcharge : Charge)
    (h1 : env.createSource (promptpaySourceParams w.session) = Except.ok psource)
    (h2 : env.createCharge (sourceChargeParams psource.id w.session) = Except.ok pcharge)
    (h3 : env.createSource (internetBankingSourceParams bank w.session)
        = Except.ok bsource)
    (h4 : env.createCharge (sourceChargeParams bsource.id w.session)
        = Except.ok bcharge) :
    (createPromptPayPayment env w).1.session.status = SessionStatus.pending_payment
    ∧ (createInternetBankingPayment env bank w).1.session.status
        = SessionStatus.pending_payment := by
  constructor
  · simp [createPromptPayPayment, h1, h2]
  · simp [createInternetBankingPayment, h3, h4]

/-- C4 (witness): the redirect theorem applied at a concrete session and a
gateway that reports a `successful` charge immediately — the session still
moves to `pending_payment`. -/
theorem redirect_payments_always_pending_witness :
    (createPromptPayPayment envSuccess wTest).1.session.status
        = SessionStatus.pending_payment
    ∧ (createInternetBankingPayment envSuccess ("bbl") wTest).1.session.status
        = SessionStatus.pending_payment :=
  redirect_payments_always_pending envSuccess wTest ("bbl") srcA srcA
    chSuccess chSuccess rfl rfl rfl rfl

/-- Status classification: a handler step either leaves the session status
unchanged or sets it to `completed` or `pending_payment`. -/
def statusOk (w w' : World) : Prop :=
  w'.session.status = w.session.status
  ∨ w'.session.status = SessionStatus.completed
  ∨ w'.session.status = SessionStatus.pending_payment

theorem statusOk_refl (w : World) : statusOk w w := Or.inl rfl

theorem statusOk_same_session (w w' w'' : World)
    (h : statusOk w w') (hs : w''.session.status = w'.session.status) :
    statusOk w w'' := by
  unfold statusOk at *
  rw [hs]
  exact h

/-- Frame facts for `processCardPayment`: status classification plus
preservation of history and cart. -/
theorem frame_processCardPayment (env : Env) (t : String) (w : World) :
    statusOk w (processCardPayment env t w).1
    ∧ (processCardPayment env t w).1.session.conversationHistory
        = w.session.conversationHistory := by
  unfold processCardPayment
  rcases h : env.createCharge (cardChargeParams t w.session) with e | c
  · simp [h, statusOk_refl]
  · by_cases h1 : (c.status == "successful") = true
    · refine ⟨Or.inr (Or.inl ?_), ?_⟩ <;> simp [h, h1]
    · by_cases h2 : (c.status == "pending") = true
      · refine ⟨Or.inr (Or.inr ?_), ?_⟩ <;>
          simp [h, h1, h2, Bool.false_eq_true]
      · have h1' : (c.status == "successful") = false := by
          simpa using h1
        have h2' : (c.status == "pending") = false := by
          simpa using h2
        refine ⟨Or.inl ?_, ?_⟩ <;> simp [h, h1', h2']

theorem frame_createPromptPayPayment (env : Env) (w : World) :
    statusOk w (createPromptPayPayment env w).1
    ∧ (createPromptPayPayment env w).1.session.conversationHistory
        = w.session.conversationHistory := by
  unfold createPromptPayPayment
  rcases h1 : env.createSource (promptpaySourceParams w.session) with e | s
  · simp [h1, statusOk_refl]
  · rcases h2 : env.createCharge (sourceChargeParams s.id w.session) with e | c
    · simp [h1, h2, statusOk_refl]
    · refine ⟨Or.inr (Or.inr ?_), ?_⟩ <;> simp [h1, h2]

theorem frame_createInternetBankingPayment (env : Env) (b : String) (w : World) :
    statusOk w (createInternetBankingPayment env b w).1
    ∧ (createInternetBankingPayment env b w).1.session.conversationHistory
        = w.session.conversationHistory := by
  unfold createInternetBankingPayment
  rcases h1 : env.createSource (internetBankingSourceParams b w.session) with e | s
  · simp [h1, statusOk_refl]
  · rcases h2 : env.createCharge (sourceChargeParams s.id w.session) with e | c
    · simp [h1, h2, statusOk_refl]
    · refine ⟨Or.inr (Or.inr ?_), ?_⟩ <;> simp [h1, h2]

theorem frame_checkPaymentStatus (env : Env) (cid : String) (w : World) :
    (checkPaymentStatus env cid w).1.session = w.session := by
  unfold checkPaymentStatus
  rcases h : env.getCharge cid with e | c <;> simp [h]

theorem frame_searchProductBySku (env : Env) (sku : String) (w : World) :
    (searchProductBySku env sku w).1.session = w.session := by
  unfold searchProductBySku
  rcases hp : env.platform with _ | pf
  · simp [hp]
  · rcases h : pf.searchProductBySku sku with e | p
    · simp [hp, h]
    · rcases p with _ | product <;> simp [hp, h]

theorem frame_addProductToCart (env : Env) (pid : String) (q : Int) (w : World) :
    (addProductToCart env pid q w).1.session.status = w.session.status
    ∧ (addProductToCart env pid q w).1.session.conversationHistory
        = w.session.conversationHistory := by
  unfold addProductToCart
  rcases hp : env.platform with _ | pf
  · simp [hp]
  · rcases h : pf.getProduct pid with e | product <;> simp [hp, h]

theorem frame_updateCartItem (cid : String) (q : Int) (w : World) :
    (updateCartItem cid q w).1.session.status = w.session.status
    ∧ (updateCartItem cid q w).1.session.conversationHistory
        = w.session.conversationHistory := by
  unfold updateCartItem
  rcases hf : findIndexOpt (fun item => item.id == cid) w.session.cart with _ | i
  · simp [hf]
  · by_cases hq : (q == 0) = true <;> simp [hf, hq]

theorem frame_listProducts (env : Env) (l : Int) (s : Option String) (w : World) :
    (listProducts env l s w).1.session = w.session := by
  unfold listProducts
  rcases hp : env.platform with _ | pf
  · simp [hp]
  · rcases h : pf.listProducts l s with e | products
    · simp [hp, h]
    · by_cases he : products.isEmpty <;> simp [hp, h, he]

theorem frame_saveShippingAddress (input : ToolInput) (w : World) :
    (saveShippingAddress input w).1.session.status = w.session.status
    ∧ (saveShippingAddress input w).1.session.conversationHistory
        = w.session.conversationHistory := by
  unfold saveShippingAddress
  rcases hs : w.store with _ | store
  · simp [hs]
  · by_cases hu : jsTruthy w.session.userId = true
    · rcases hr : (addShippingAddress store ((w.session.userId).getD "")
          { firstName := input.first_name, lastName := input.last_name
            address1 := input.address1, address2 := input.address2
            city := input.city, state := input.state
            postalCode := input.postal_code, country := input.country
            phone := input.phone, label := input.label
            isDefault := some (input.is_default.getD false) }
          ("addr_" ++ toString w.nextId)).2 with e | a <;>
        simp [hs, hu, hr]
    · simp [hs, hu]

theorem frame_saveBillingAddress (input : ToolInput) (w : World) :
    (saveBillingAddress input w).1.session.status = w.session.status
    ∧ (saveBillingAddress input w).1.session.conversationHistory
        = w.session.conversationHistory := by
  unfold saveBillingAddress
  rcases hs : w.store with _ | store
  · simp [hs]
  · by_cases hu : jsTruthy w.session.userId = true
    · rcases hr : (addBillingAddress store ((w.session.userId).getD "")
          { firstName := input.first_name, lastName := input.last_name
            address1 := input.address1, address2 := input.address2
            city := input.city, state := input.state
            postalCode := input.postal_code, country := input.country
            phone := input.phone, label := input.label
            isDefault := some (input.is_default.getD false) }
          ("addr_" ++ toString w.nextId)).2 with e | a <;>
        simp [hs, hu, hr]
    · simp [hs, hu]

theorem frame_getSavedAddresses (w : World) :
    (getSavedAddresses w).1.session = w.session := by
  unfold getSavedAddresses
  rcases hs : w.store with _ | store
  · simp [hs]
  · by_cases hu : jsTruthy w.session.userId = true
    · rcases hp : getProfile store ((w.session.userId).getD "") with _ | profile <;>
        simp [hs, hu, hp]
    · simp [hs, hu]

theorem frame_savePaymentMethod (input : ToolInput) (w : World) :
    (savePaymentMethod input w).1.session.status = w.session.status
    ∧ (savePaymentMethod input w).1.session.conversationHistory
        = w.session.conversationHistory := by
  unfold savePaymentMethod
  rcases hs : w.store with _ | store
  · simp [hs]
  · by_cases hu : jsTruthy w.session.userId = true
    · rcases hr : (addPaymentMethod store ((w.session.userId).getD "")
          { type := input.pm_type.getD PMType.card
            cardToken := input.card_token
            cardBrand := input.card_brand
            cardLastDigits := input.card_last_digits
            cardExpiryMonth := input.card_expiry_month
            cardExpiryYear := input.card_expiry_year
            cardHolderName := input.card_holder_name
            bankCode := input.bank_code
            isDefault := some (input.is_default.getD false) }
          ("pm_" ++ toString w.nextId)).2 with e | m <;>
        simp [hs, hu, hr]
    · simp [hs, hu]

theorem frame_getQuickCheckoutDataTool (w : World) :
    (getQuickCheckoutDataTool w).1.session = w.session := by
  unfold getQuickCheckoutDataTool
  rcases hs : w.store with _ | store
  · simp [hs]
  · by_cases hu : jsTruthy w.session.userId = true <;> simp [hs, hu]

theorem frame_processQuickCheckout (env : Env) (b : Bool) (w : World) :
    statusOk w (processQuickCheckout env b w).1
    ∧ (processQuickCheckout env b w).1.session.conversationHistory
        = w.session.conversationHistory := by
  unfold processQuickCheckout
  rcases hs : w.store with _ | store
  · simp [hs, statusOk_refl]
  · by_cases hu : jsTruthy w.session.userId = true
    · rcases hpm : (getQuickCheckoutData store ((w.session.userId).getD "")).paymentMethod
          with _ | pm
      · simp [hs, hu, hpm, statusOk_refl]
      · by_cases hc : (pm.type == PMType.card && jsTruthy pm.cardToken) = true
        · rcases hw1 : processCardPayment env ((pm.cardToken).getD "") w with ⟨w1, r⟩
          have hfr := frame_processCardPayment env ((pm.cardToken).getD "") w
          rw [hw1] at hfr
          rcases r with e | result
          · simpa [hs, hu, hpm, hc, hw1] using hfr
          · by_cases hcomp : (w1.session.status == SessionStatus.completed) = true
            · rcases hrec : (recordCheckout ((w1.store).getD store)
                  ((w.session.userId).getD "") w1.session.totalAmount).2 with e | u <;>
                simpa [hs, hu, hpm, hc, hw1, hcomp, hrec] using hfr
            · simpa [hs, hu, hpm, hc, hw1, hcomp] using hfr
        · by_cases hp2 : (pm.type == PMType.promptpay) = true
          · rcases hw1 : createPromptPayPayment env w with ⟨w1, r⟩
            have hfr := frame_createPromptPayPayment env w
            rw [hw1] at hfr
            rcases r with e | result
            · simpa [hs, hu, hpm, hc, hp2, hw1] using hfr
            · by_cases hcomp : (w1.session.status == SessionStatus.completed) = true
              · rcases hrec : (recordCheckout ((w1.store).getD store)
                    ((w.session.userId).getD "") w1.session.totalAmount).2 with e | u <;>
                  simpa [hs, hu, hpm, hc, hp2, hw1, hcomp, hrec] using hfr
              · simpa [hs, hu, hpm, hc, hp2, hw1, hcomp] using hfr
          · by_cases hp3 : (pm.type == PMType.internet_banking
                && jsTruthy pm.bankCode) = true
            · rcases hw1 : createInternetBankingPayment env ((pm.bankCode).getD "") w
                  with ⟨w1, r⟩
              have hfr := frame_createInternetBankingPayment env ((pm.bankCode).getD "") w
              rw [hw1] at hfr
              rcases r with e | result
              · simpa [hs, hu, hpm, hc, hp2, hp3, hw1] using hfr
              · by_cases hcomp : (w1.session.status == SessionStatus.completed) = true
                · rcases hrec : (recordCheckout ((w1.store).getD store)
                      ((w.session.userId).getD "") w1.session.totalAmount).2 with e | u <;>
                    simpa [hs, hu, hpm, hc, hp2, hp3, hw1, hcomp, hrec] using hfr
                · simpa [hs, hu, hpm, hc, hp2, hp3, hw1, hcomp] using hfr
            · simp [hs, hu, hpm, hc, hp2, hp3, statusOk_refl]
    · simp [hs, hu, statusOk_refl]

/-- The `try`/`catch` wrapper never changes which world a tool call
produces, only the result text. -/
theorem handleToolCall_world (env : Env) (name : String) (input : ToolInput)
    (w : World) :
    (handleToolCall env name input w).1 = (dispatch env name input w).1 := by
  unfold handleToolCall
  rcases hr : (dispatch env name input w).2 with e | t <;> simp [hr]

theorem dispatch_frame (env : Env) (name : String) (input : ToolInput)
    (w : World) :
    statusOk w (dispatch env name input w).1
    ∧ (dispatch env name input w).1.session.conversationHistory
        = w.session.conversationHistory := by
  unfold dispatch
  by_cases h1 : (name == "process_card_payment") = true
  · have hx := frame_processCardPayment env ((input.card_token).getD "") w
    exact ⟨by simpa [h1] using hx.1, by simpa [h1] using hx.2⟩
  · by_cases h2 : (name == "create_promptpay_payment") = true
    · have hx := frame_createPromptPayPayment env w
      exact ⟨by simpa [h1, h2] using hx.1, by simpa [h1, h2] using hx.2⟩
    · by_cases h3 : (name == "create_internet_banking_payment") = true
      · have hx := frame_createInternetBankingPayment env ((input.bank).getD "") w
        exact ⟨by simpa [h1, h2, h3] using hx.1, by simpa [h1, h2, h3] using hx.2⟩
      · by_cases h4 : (name == "check_payment_status") = true
        · have hx := frame_checkPaymentStatus env ((input.charge_id).getD "") w
          exact ⟨Or.inl (by simp [h1, h2, h3, h4, hx]),
                 by simp [h1, h2, h3, h4, hx]⟩
        · by_cases h5 : (name == "search_product_by_sku") = true
          · have hx := frame_searchProductBySku env ((input.sku).getD "") w
            exact ⟨Or.inl (by simp [h1, h2, h3, h4, h5, hx]),
                   by simp [h1, h2, h3, h4, h5, hx]⟩
          · by_cases h6 : (name == "add_product_to_cart") = true
            · have hx := frame_addProductToCart env ((input.product_id).getD "")
                (jsOrInt input.quantity 1) w
              exact ⟨Or.inl (by simpa [h1, h2, h3, h4, h5, h6] using hx.1),
                     by simpa [h1, h2, h3, h4, h5, h6] using hx.2⟩
            · by_cases h7 : (name == "update_cart_item") = true
              · have hx := frame_updateCartItem ((input.cart_item_id).getD "")
                  ((input.quantity).getD 0) w
                exact ⟨Or.inl (by simpa [h1, h2, h3, h4, h5, h6, h7] using hx.1),
                       by simpa [h1, h2, h3, h4, h5, h6, h7] using hx.2⟩
              · by_cases h8 : (name == "list_products") = true
                · have hx := frame_listProducts env (jsOrInt input.limit 10)
                    input.search w
                  exact ⟨Or.inl (by simp [h1, h2, h3, h4, h5, h6, h7, h8, hx]),
                         by simp [h1, h2, h3, h4, h5, h6, h7, h8, hx]⟩
                · by_cases h9 : (name == "save_shipping_address") = true
                  · have hx := frame_saveShippingAddress input w
                    exact ⟨Or.inl (by simpa [h1, h2, h3, h4, h5, h6, h7, h8, h9]
                             using hx.1),
                           by simpa [h1, h2, h3, h4, h5, h6, h7, h8, h9] using hx.2⟩
                  · by_cases h10 : (name == "save_billing_address") = true
                    · have hx := frame_saveBillingAddress input w
                      exact ⟨Or.inl (by simpa [h1, h2, h3, h4, h5, h6, h7, h8, h9, h10]
                               using hx.1),
                             by simpa [h1, h2, h3, h4, h5, h6, h7, h8, h9, h10]
                               using hx.2⟩
                    · by_cases h11 : (name == "get_saved_addresses") = true
                      · have hx := frame_getSavedAddresses w
                        exact ⟨Or.inl (by simp [h1, h2, h3, h4, h5, h6, h7, h8, h9,
                                 h10, h11, hx]),
                               by simp [h1, h2, h3, h4, h5, h6, h7, h8, h9, h10,
                                 h11, hx]⟩
                      · by_cases h12 : (name == "save_payment_method") = true
                        · have hx := frame_savePaymentMethod input w
                          exact ⟨Or.inl (by simpa [h1, h2, h3, h4, h5, h6, h7, h8,
                                   h9, h10, h11, h12] using hx.1),
                                 by simpa [h1, h2, h3, h4, h5, h6, h7, h8, h9, h10,
                                   h11, h12] using hx.2⟩
                        · by_cases h13 : (name == "get_quick_checkout_data") = true
                          · have hx := frame_getQuickCheckoutDataTool w
                            exact ⟨Or.inl (by simp [h1, h2, h3, h4, h5, h6, h7, h8,
                                     h9, h10, h11, h12, h13, hx]),
                                   by simp [h1, h2, h3, h4, h5, h6, h7, h8, h9, h10,
                                     h11, h12, h13, hx]⟩
                          · by_cases h14 : (name == "process_quick_checkout") = true
                            · have hx := frame_processQuickCheckout env
                                ((input.use_saved_payment).getD true) w
                              exact ⟨by simpa [h1, h2, h3, h4, h5, h6, h7, h8, h9,
                                       h10, h11, h12, h13, h14] using hx.1,
                                     by simpa [h1, h2, h3, h4, h5, h6, h7, h8, h9,
                                       h10, h11, h12, h13, h14] using hx.2⟩
                            · exact ⟨Or.inl (by simp [h1, h2, h3, h4, h5, h6, h7,
                                     h8, h9, h10, h11, h12, h13, h14]),
                                   by simp [h1, h2, h3, h4, h5, h6, h7, h8, h9,
                                     h10, h11, h12, h13, h14]⟩

/-- Outside the four payment-dispatching tools, no tool changes the session
status at all. -/
theorem dispatch_status_eq_of_not_payment (env : Env) (name : String)
    (input : ToolInput) (w : World)
    (n1 : name ≠ "process_card_payment")
    (n2 : name ≠ "create_promptpay_payment")
    (n3 : name ≠ "create_internet_banking_payment")
    (n4 : name ≠ "process_quick_checkout") :
    (dispatch env name input w).1.session.status = w.session.status := by
  have h1 : (name == "process_card_payment") = false := by simpa using n1
  have h2 : (name == "create_promptpay_payment") = false := by simpa using n2
  have h3 : (name == "create_internet_banking_payment") = false := by simpa using n3
  have h14 : (name == "process_quick_checkout") = false := by simpa using n4
  unfold dispatch
  by_cases h4 : (name == "check_payment_status") = true
  · simp [h1, h2, h3, h4, frame_checkPaymentStatus env ((input.charge_id).getD "") w]
  · by_cases h5 : (name == "search_product_by_sku") = true
    · simp [h1, h2, h3, h4, h5,
        frame_searchProductBySku env ((input.sku).getD "") w]
    · by_cases h6 : (name == "add_product_to_cart") = true
      · simpa [h1, h2, h3, h4, h5, h6] using
          (frame_addProductToCart env ((input.product_id).getD "")
            (jsOrInt input.quantity 1) w).1
      · by_cases h7 : (name == "update_cart_item") = true
        · simpa [h1, h2, h3, h4, h5, h6, h7] using
            (frame_updateCartItem ((input.cart_item_id).getD "")
              ((input.quantity).getD 0) w).1
        · by_cases h8 : (name == "list_products") = true
          · simp [h1, h2, h3, h4, h5, h6, h7, h8,
              frame_listProducts env (jsOrInt input.limit 10) input.search w]
          · by_cases h9 : (name == "save_shipping_address") = true
            · simpa [h1, h2, h3, h4, h5, h6, h7, h8, h9] using
                (frame_saveShippingAddress input w).1
            · by_cases h10 : (name == "save_billing_address") = true
              · simpa [h1, h2, h3, h4, h5, h6, h7, h8, h9, h10] using
                  (frame_saveBillingAddress input w).1
              · by_cases h11 : (name == "get_saved_addresses") = true
                · simp [h1, h2, h3, h4, h5, h6, h7, h8, h9, h10, h11,
                    frame_getSavedAddresses w]
                · by_cases h12 : (name == "save_payment_method") = true
                  · simpa [h1, h2, h3, h4, h5, h6, h7, h8, h9, h10, h11, h12] using
                      (frame_savePaymentMethod input w).1
                  · by_cases h13 : (name == "get_quick_checkout_data") = true
                    · simp [h1, h2, h3, h4, h5, h6, h7, h8, h9, h10, h11, h12, h13,
                        frame_getQuickCheckoutDataTool w]
                    · simp [h1, h2, h3, h4, h5, h6, h7, h8, h9, h10, h11, h12,
                        h13, h14]

def emptyInput : ToolInput := {}

def wCompleted : World :=
  { session := { sessTest with status := SessionStatus.completed }, store := none }

def wCancelled : World :=
  { session := { sessTest with status := SessionStatus.cancelled }, store := none }

/-- C5 (counterexample): `completed` and `cancelled` are not terminal — at a
concrete completed (resp. cancelled) session, the `create_promptpay_payment`
tool handler moves the status to `pending_payment`. -/
theorem completed_not_terminal_counterexample :
    wCompleted.session.status = SessionStatus.completed
    ∧ (handleToolCall envSuccess ("create_promptpay_payment") emptyInput
        wCompleted).1.session.status = SessionStatus.pending_payment
    ∧ wCancelled.session.status = SessionStatus.cancelled
    ∧ (handleToolCall envSuccess ("create_promptpay_payment") emptyInput
        wCancelled).1.session.status = SessionStatus.pending_payment := by
  exact ⟨rfl, rfl, rfl, rfl⟩

/-- C5 (amended): no tool handler ever sets the session status to `active`
or `cancelled`: every handler either leaves the status unchanged or sets it
to `completed` or `pending_payment` — but the payment handlers do so without
guarding on the current status, so `completed` and `cancelled` are not
terminal.  Handlers other than the four payment-dispatching tools never
change the status at all. -/
theorem handler_status_transitions (env : Env) (name : String)
    (input : ToolInput) (w : World) :
    ((handleToolCall env name input w).1.session.status = w.session.status
      ∨ (handleToolCall env name input w).1.session.status = SessionStatus.completed
      ∨ (handleToolCall env name input w).1.session.status
          = SessionStatus.pending_payment)
    ∧ (name ≠ "process_card_payment" → name ≠ "create_promptpay_payment" →
        name ≠ "create_internet_banking_payment" →
        name ≠ "process_quick_checkout" →
        (handleToolCall env name input w).1.session.status = w.session.status) := by
  constructor
  · have h := (dispatch_frame env name input w).1
    rw [handleToolCall_world]
    exact h
  · intro n1 n2 n3 n4
    rw [handleToolCall_world]
    exact dispatch_status_eq_of_not_payment env name input w n1 n2 n3 n4

/-- C5 (witness): the transition theorem applied to a concrete
`check_payment_status` call, whose four inequality hypotheses are discharged
by computation. -/
theorem handler_status_transitions_witness :
    (handleToolCall envSuccess ("check_payment_status") emptyInput
        wTest).1.session.status = wTest.session.status :=
  (handler_status_transitions envSuccess ("check_payment_status") emptyInput
      wTest).2
    (by decide) (by decide) (by decide) (by decide)

/-- No tool handler ever touches the conversation history: the
reply-assembly loop leaves it exactly as it was. -/
theorem processContent_history (env : Env) :
    ∀ (blocks : List ContentBlock) (w : World) (acc : String),
      (processContent env blocks w acc).1.session.conversationHistory
        = w.session.conversationHistory := by
  intro blocks
  induction blocks with
  | nil => intro w acc; rfl
  | cons b rest ih =>
      intro w acc
      cases b with
      | text t => simpa [processContent] using ih w (acc ++ t)
      | tool_use name input =>
          simp only [processContent]
          rw [ih]
          rw [handleToolCall_world]
          exact (dispatch_frame env name input w).2

/-- C6: `chat` pushes the user message onto `conversationHistory` before the
model call (so it survives a failed model call), appends exactly one
assistant message holding the final concatenated reply after all segments
are processed, and never removes or reorders existing entries — also when a
tool call inside the turn throws. -/
theorem chat_history_append_only (env : Env) (w : World) (userMessage : String)
    (modelResponse : Except String (List ContentBlock)) :
    (∀ e, (chat env w userMessage modelResponse).2 = Except.error e →
        (chat env w userMessage modelResponse).1.session.conversationHistory
          = w.session.conversationHistory
              ++ [{ role := Role.user, content := userMessage }])
    ∧ (∀ reply, (chat env w userMessage modelResponse).2 = Except.ok reply →
        (chat env w userMessage modelResponse).1.session.conversationHistory
          = w.session.conversationHistory
              ++ [{ role := Role.user, content := userMessage },
                  { role := Role.assistant, content := reply }]) := by
  cases modelResponse with
  | error e0 =>
      constructor
      · intro e h
        simp [chat, appendMessage]
      · intro reply h
        simp [chat] at h
  | ok blocks =>
      constructor
      · intro e h
        simp [chat] at h
      · intro reply h
        have h2 : (processContent env blocks
            { w with session := appendMessage w.session Role.user userMessage }
            "").2 = reply := by
          simpa [chat] using h
        have h3 : (chat env w userMessage (Except.ok blocks)).1.session.conversationHistory
            = (processContent env blocks
                { w with session := appendMessage w.session Role.user userMessage }
                "").1.session.conversationHistory
              ++ [{ role := Role.assistant,
                    content := (processContent env blocks
                      { w with session := appendMessage w.session Role.user userMessage }
                      "").2 }] := rfl
        rw [h3, h2, processContent_history]
        simp [appendMessage]

/-- C6 (witness): the history theorem applied at a concrete session, once
with a failing model call (user message still retained) and once with an
empty successful reply. -/
theorem chat_history_append_only_witness :
    (chat envSuccess wTest ("hi") (Except.error ("model down"))).1.session.conversationHistory
      = wTest.session.conversationHistory
          ++ [{ role := Role.user, content := "hi" }]
    ∧ (chat envSuccess wTest ("hi") (Except.ok [])).1.session.conversationHistory
      = wTest.session.conversationHistory
          ++ [{ role := Role.user, content := "hi" },
              { role := Role.assistant, content := "" }] := by
  constructor
  · exact (chat_history_append_only envSuccess wTest ("hi")
      (Except.error ("model down"))).1 ("model down") rfl
  · exact (chat_history_append_only envSuccess wTest ("hi")
      (Except.ok [])).2 ("") rfl

def envGatewayDown : Env :=
  { createCharge := fun _ => Except.error ("gateway unreachable")
    createSource := fun _ => Except.error ("gateway unreachable")
    getCharge := fun _ => Except.error ("gateway unreachable")
    platform := none }

/-- C7: when a tool handler throws, the orchestrator catches the exception,
substitutes `Error: <message>` for that segment's result, and continues with
the remaining segments; and a chat turn whose model call returned segments
always produces a reply — a failing tool call never propagates an exception
out of `chat`. -/
theorem tool_error_caught_and_continues (env : Env) (name : String)
    (input : ToolInput) (w w' : World) (msg : String) (rest : List ContentBlock)
    (acc : String) (blocks : List ContentBlock) (userMessage : String)
    (h : dispatch env name input w = (w', Except.error msg)) :
    processContent env (ContentBlock.tool_use name input :: rest) w acc
      = processContent env rest w' (acc ++ "\n\n" ++ ("Error: " ++ msg))
    ∧ ∃ reply, (chat env w userMessage (Except.ok blocks)).2 = Except.ok reply := by
  constructor
  · simp only [processContent, handleToolCall, h]
  · exact ⟨(processContent env blocks
      { w with session := appendMessage w.session Role.user userMessage } "").2,
      by simp [chat]⟩

/-- C7 (witness): the catch-and-continue theorem applied to a concrete
`process_card_payment` call against an unreachable gateway, with a further
text segment after the failing tool call. -/
theorem tool_error_caught_and_continues_witness :
    processContent envGatewayDown
        (ContentBlock.tool_use ("process_card_payment") emptyInput
          :: [ContentBlock.text ("after")]) wTest ("")
      = processContent envGatewayDown [ContentBlock.text ("after")] wTest
          ("" ++ "\n\n" ++ ("Error: " ++ "gateway unreachable"))
    ∧ ∃ reply, (chat envGatewayDown wTest ("pay")
        (Except.ok [ContentBlock.tool_use ("process_card_payment") emptyInput])).2
        = Except.ok reply :=
  tool_error_caught_and_continues envGatewayDown ("process_card_payment")
    emptyInput wTest wTest ("gateway unreachable") [ContentBlock.text ("after")]
    ("") [ContentBlock.tool_use ("process_card_payment") emptyInput] ("pay") rfl

def pmNonDefault : PaymentMethod :=
  { id := "pm_1", type := PMType.card, isDefault := false
    cardToken := some ("tok_saved") }

def profileU1 : UserProfile := { id := "u1", paymentMethods := [pmNonDefault] }

def profileNoPM : UserProfile := { id := "u2" }

def wQuick : World :=
  { session := { sessTest with userId := some ("u1") }, store := some [profileU1] }

def wQuickNoPM : World :=
  { session := { sessTest with userId := some ("u2") }, store := some [profileNoPM] }

/-- C9 (counterexample): at a concrete profile with one saved payment method
and none marked default — so there is no saved *default* payment method —
`process_quick_checkout` does not return the no-saved-method failure and
does mutate the session status: it charges the first saved method and
completes the session. -/
theorem quick_checkout_nondefault_counterexample :
    profileU1.paymentMethods.all (fun m => !m.isDefault) = true
    ∧ profileU1.paymentMethods ≠ []
    ∧ wQuick.session.status = SessionStatus.active
    ∧ (processQuickCheckout envSuccess true wQuick).1.session.status
        = SessionStatus.completed
    ∧ (processQuickCheckout envSuccess true wQuick).2
        = Except.ok (("Quick Checkout:\n")
            ++ ("Payment processed successfully! Charge ID: " ++ ("ch_1")
                ++ ", Status: " ++ ("successful"))) := by
  refine ⟨rfl, by decide, rfl, rfl, rfl⟩

/-- C9 (amended): for every session with `userId` set whose profile yields
no saved payment method at all (`getQuickCheckoutData` finds none — the
profile's method list is empty or the profile is missing),
`process_quick_checkout` returns the explanatory failure text and leaves
the world, in particular `session.status`, unchanged.  When methods exist
but none is marked default, it instead charges the first saved method. -/
theorem quick_checkout_no_saved_method (env : Env) (b : Bool) (w : World)
    (store : List UserProfile) (uid : String)
    (hs : w.store = some store)
    (hu : w.session.userId = some uid) (hne : uid ≠ "")
    (hpm : (getQuickCheckoutData store uid).paymentMethod = none) :
    processQuickCheckout env b w
      = (w, Except.ok ("No saved payment method found. Please add a payment method first.")) := by
  have ht : jsTruthy w.session.userId = true := by
    simp [jsTruthy, hu, hne]
  have hg : (w.session.userId).getD "" = uid := by simp [hu]
  simp [processQuickCheckout, hs, ht, hg, hpm]

/-- C9 (witness): the no-saved-method theorem applied at a concrete session
whose profile has an empty payment-method list. -/
theorem quick_checkout_no_saved_method_witness :
    processQuickCheckout envSuccess true wQuickNoPM
      = (wQuickNoPM,
         Except.ok ("No saved payment method found. Please add a payment method first.")) :=
  quick_checkout_no_saved_method envSuccess true wQuickNoPM [profileNoPM] ("u2")
    rfl rfl (by decide) rfl

/-- C10: for a profile with at least one saved payment method and none
marked default, `getDefaultPaymentMethod` (and hence
`getQuickCheckoutData`) returns the first saved method rather than null, so
`process_quick_checkout` proceeds to charge that non-default method — for a
complete card method and a gateway that reports success, it completes the
session and returns the quick-checkout success text instead of reporting
that no payment method is saved. -/
theorem getDefaultPaymentMethod_falls_back_to_first
    (store : List UserProfile) (uid : String) (profile : UserProfile)
    (pm : PaymentMethod) (pms : List PaymentMethod)
    (env : Env) (b : Bool) (w : World) (t : String) (charge : Charge)
    (hp : getProfile store uid = some profile)
    (hlist : profile.paymentMethods = pm :: pms)
    (hnd : ∀ m ∈ profile.paymentMethods, m.isDefault = false) :
    getDefaultPaymentMethod store uid = some pm
    ∧ (getQuickCheckoutData store uid).paymentMethod = some pm
    ∧ (w.store = some store → w.session.userId = some uid → uid ≠ "" →
        pm.type = PMType.card → pm.cardToken = some t → t ≠ "" →
        env.createCharge (cardChargeParams t w.session) = Except.ok charge →
        charge.status = "successful" →
        (processQuickCheckout env b w).1.session.status = SessionStatus.completed
        ∧ (processQuickCheckout env b w).2
            = Except.ok (("Quick Checkout:\n")
                ++ ("Payment processed successfully! Charge ID: " ++ charge.id
                    ++ ", Status: " ++ charge.status))) := by
  have hfind : profile.paymentMethods.find? (fun m => m.isDefault) = none := by
    rw [List.find?_eq_none]
    intro m hm
    simp [hnd m hm]
  have hfind2 : List.find? (fun m => m.isDefault) (pm :: pms) = none := by
    rw [← hlist]; exact hfind
  have h1 : getDefaultPaymentMethod store uid = some pm := by
    simp [getDefaultPaymentMethod, hp, hlist, hfind2]
  have h2 : (getQuickCheckoutData store uid).paymentMethod = some pm := by
    simp [getQuickCheckoutData, hp, h1]
  refine ⟨h1, h2, ?_⟩
  intro hw hu hne hcard htok htne hch hst
  have ht : jsTruthy w.session.userId = true := by
    simp [jsTruthy, hu, hne]
  have hg : (w.session.userId).getD "" = uid := by simp [hu]
  have htok2 : jsTruthy pm.cardToken = true := by
    simp [jsTruthy, htok, htne]
  have hgt : (pm.cardToken).getD "" = t := by simp [htok]
  have hcc : (pm.type == PMType.card && jsTruthy pm.cardToken) = true := by
    simp [hcard, htok2]
  have hpcp : processCardPayment env t w
      = ({ w with session := { w.session with status := SessionStatus.completed } },
         Except.ok ("Payment processed successfully! Charge ID: " ++ charge.id
           ++ ", Status: " ++ charge.status)) := by
    simp [processCardPayment, hch, hst]
  have hrec : recordCheckout store uid
      ({ w with session := { w.session with status := SessionStatus.completed } }
        ).session.totalAmount
      = (setProfile store uid
          { profile with
              totalOrders := profile.totalOrders + 1
              totalSpent := profile.totalSpent + w.session.totalAmount },
         Except.ok ()) := by
    simp [recordCheckout, hp]
  constructor
  · simp [processQuickCheckout, hw, ht, hg, h2, hcc, hgt, hpcp, hrec]
  · simp [processQuickCheckout, hw, ht, hg, h2, hcc, hgt, hpcp, hrec]

/-- C10 (witness): the fallback theorem applied at the concrete profile with
exactly one non-default card method, a gateway reporting success, and the
concrete quick-checkout session. -/
theorem getDefaultPaymentMethod_falls_back_to_first_witness :
    getDefaultPaymentMethod [profileU1] ("u1") = some pmNonDefault
    ∧ (processQuickCheckout envSuccess true wQuick).1.session.status
        = SessionStatus.completed := by
  have h := getDefaultPaymentMethod_falls_back_to_first [profileU1] ("u1")
    profileU1 pmNonDefault [] envSuccess true wQuick ("tok_saved") chSuccess
    rfl rfl (by decide)
  exact ⟨h.1, (h.2.2 rfl rfl (by decide) rfl rfl (by decide) rfl rfl).1⟩

end OmiseCheckout
